import Mathlib

/- Shallow embedding of `backend/redis_client.py` and
   `backend/integrations/hubspot.py` from the repository
   `yashovardhan3304/vectorshift-assessment`.

   Conventions used throughout:
   - Machine randomness (`secrets.token_urlsafe`), wall-clock time
     (`time.time()`), the reachability of the external redis store, and the
     provider's HTTP responses are environment inputs, passed as explicit
     parameters (`nonce`, `now`, `avail`, `tokenResponse`).
   - A Python coroutine that can raise is embedded with an `Except`-shaped or
     sum-shaped result type; `try/except Exception` around the external store
     call is embedded as a case split on the `avail` parameter (`avail = false`
     means every redis call raises, which the `except` clause catches).
   - The stateful stores (`redis` contents and the `_memory_store` dict) are
     association lists threaded explicitly through the operations. -/

/-- Python truthiness of an optional string: `None` and the empty string are falsy. -/
def pyTruthy : Option String → Bool
  | none => false
  | some s => s ≠ ""

/-- Python truthiness of an optional integer: `None` and `0` are falsy. -/
def pyTruthyInt : Option Int → Bool
  | none => false
  | some e => e ≠ 0

/-- Python `a or b` on optional strings (left operand when truthy, else right). -/
def pyOr (a b : Option String) : Option String :=
  if pyTruthy a then a else b

/-- Rendering of an optional string inside a Python f-string: `None` prints as `"None"`. -/
def pyStrOpt : Option String → String
  | none => "None"
  | some s => s

/-- Lookup in an association list (embeds Python `dict.get`). -/
def alGet {α : Type} : List (String × α) → String → Option α
  | [], _ => none
  | (k, v) :: t, k' => if k = k' then some v else alGet t k'

/-- Insert or replace in an association list (embeds Python `dict[k] = v` / redis `SET`). -/
def alSet {α : Type} : List (String × α) → String → α → List (String × α)
  | [], k, v => [(k, v)]
  | (k0, v0) :: t, k, v => if k0 = k then (k, v) :: t else (k0, v0) :: alSet t k v

/-- Remove from an association list (embeds `dict.pop(k, None)` / redis `DELETE`). -/
def alDel {α : Type} : List (String × α) → String → List (String × α)
  | [], _ => []
  | (k0, v0) :: t, k => if k0 = k then alDel t k else (k0, v0) :: alDel t k

/-- An entry of the external redis store. Redis manages expiry natively; we
record the ttl installed by `EXPIRE` without modelling its lapse (no claim
depends on external-store expiry). `SET` clears any previous ttl. -/
structure ExtEntry where
  value : String
  ttl : Option Int
deriving Repr, DecidableEq

/-- An entry of the in-memory fallback store `_memory_store`:
the stored value together with the absolute expiry timestamp (`None` = no expiry),
mirroring `dict[str, Tuple[bytes, Optional[float]]]`. -/
structure MemEntry where
  value : String
  expireAt : Option Int
deriving Repr, DecidableEq

/-- The two stores visible to `redis_client.py`: the external redis contents and
the process-local `_memory_store` fallback dict. -/
structure Store where
  ext : List (String × ExtEntry)
  mem : List (String × MemEntry)
deriving Repr, DecidableEq

/-- Embeds `redis_client.add_key_value_redis(key, value, expire=None)`.
`avail = true`: `redis_client.set` succeeds, then `if expire:` installs the ttl.
`avail = false`: the redis call raises, `except Exception` catches it and writes
`(value, time.time() + expire if expire else None)` into `_memory_store`.
The `Except` result embeds the coroutine's own outcome: `.error` would be an
exception escaping to the caller. -/
def add_key_value_redis (avail : Bool) (now : Int) (s : Store) (key value : String)
    (expire : Option Int) : Except String Store :=
  if avail then
    let ext1 := alSet s.ext key ⟨value, none⟩
    let ext2 := if pyTruthyInt expire then alSet ext1 key ⟨value, expire⟩ else ext1
    .ok { s with ext := ext2 }
  else
    let expireAt := if pyTruthyInt expire then expire.map (fun e => now + e) else none
    .ok { s with mem := alSet s.mem key ⟨value, expireAt⟩ }

/-- Embeds `redis_client.get_value_redis(key)`.
`avail = true`: returns `redis_client.get(key)` (the stored value or `None`).
`avail = false`: the redis call raises and the fallback read runs: absent entry
gives `None`; an entry past its expiry is popped and gives `None` (lazy expiry);
otherwise the stored value is returned. -/
def get_value_redis (avail : Bool) (now : Int) (s : Store) (key : String) :
    Except String (Option String × Store) :=
  if avail then
    .ok ((alGet s.ext key).map (fun e => e.value), s)
  else
    match alGet s.mem key with
    | none => .ok (none, s)
    | some e =>
      match e.expireAt with
      | some ea =>
        if now > ea then .ok (none, { s with mem := alDel s.mem key })
        else .ok (some e.value, s)
      | none => .ok (some e.value, s)

/-- Embeds `redis_client.delete_key_redis(key)`.
`avail = true`: `redis_client.delete(key)` (a no-op on an absent key).
`avail = false`: the redis call raises and `_memory_store.pop(str(key), None)`
runs, which never raises. -/
def delete_key_redis (avail : Bool) (s : Store) (key : String) : Except String Store :=
  if avail then
    .ok { s with ext := alDel s.ext key }
  else
    .ok { s with mem := alDel s.mem key }

/-- The URL-safe base64 alphabet used by `base64.urlsafe_b64encode`. -/
def b64Alphabet : List Char :=
  "ABCDEFGHIJKLMNOPQRSTUVWXYZabcdefghijklmnopqrstuvwxyz0123456789-_".data

/-- The character encoding a 6-bit value. -/
def b64Char (n : Nat) : Char := b64Alphabet.getD n 'A'

/-- Index of a character in the standard base64 alphabet, after the
urlsafe translation `-` to `+` and `_` to `/` performed by
`base64.urlsafe_b64decode`; `none` for characters outside the alphabet. -/
def alphaIdx : List Char → Char → Option Nat
  | [], _ => none
  | a :: t, c => if a = c then some 0 else (alphaIdx t c).map (fun n => n + 1)

/-- Value of one base64 character (accepting both the standard and the
urlsafe alphabets, as `urlsafe_b64decode` effectively does). -/
def b64Val (c : Char) : Option Nat :=
  let c := if c = '-' then '+' else if c = '_' then '/' else c
  alphaIdx "ABCDEFGHIJKLMNOPQRSTUVWXYZabcdefghijklmnopqrstuvwxyz0123456789+/".data c

/-- Base64 encoding of a byte list, three bytes to four characters with
`=` padding. -/
def b64EncodeChunks : List Nat → List Char
  | [] => []
  | [a] => [b64Char (a / 4), b64Char (a % 4 * 16), '=', '=']
  | [a, b] => [b64Char (a / 4), b64Char (a % 4 * 16 + b / 16), b64Char (b % 16 * 4), '=']
  | a :: b :: c :: rest =>
    b64Char (a / 4) :: b64Char (a % 4 * 16 + b / 16) :: b64Char (b % 16 * 4 + c / 64) ::
      b64Char (c % 64) :: b64EncodeChunks rest

/-- Embeds `base64.urlsafe_b64encode` on a byte list (result as a string). -/
def urlsafe_b64encode (bs : List Nat) : String := ⟨b64EncodeChunks bs⟩

/-- Base64 decoding of a cleaned character list in four-character quanta,
with `=` padding accepted only at the very end. -/
def b64DecodeChunks : List Char → Except String (List Nat)
  | [] => .ok []
  | c1 :: c2 :: c3 :: c4 :: rest =>
    match b64Val c1, b64Val c2 with
    | some v1, some v2 =>
      if c3 = '=' then
        if c4 = '=' ∧ rest = [] then .ok [v1 * 4 + v2 / 16]
        else .error "binascii.Error: Invalid base64-encoded string"
      else
        match b64Val c3 with
        | some v3 =>
          if c4 = '=' then
            if rest = [] then .ok [v1 * 4 + v2 / 16, v2 % 16 * 16 + v3 / 4]
            else .error "binascii.Error: Invalid base64-encoded string"
          else
            match b64Val c4 with
            | some v4 =>
              (b64DecodeChunks rest).map
                (fun bs => (v1 * 4 + v2 / 16) :: (v2 % 16 * 16 + v3 / 4) :: (v3 % 4 * 64 + v4) :: bs)
            | none => .error "binascii.Error: Invalid base64-encoded string"
        | none => .error "binascii.Error: Invalid base64-encoded string"
    | _, _ => .error "binascii.Error: Invalid base64-encoded string"
  | _ => .error "binascii.Error: Invalid padding"

/-- Embeds `base64.urlsafe_b64decode`: translate the urlsafe alphabet, discard
characters outside the base64 alphabet (Python's default non-validating mode),
require a multiple of four characters, then decode the quanta. -/
def urlsafe_b64decode (s : String) : Except String (List Nat) :=
  let kept := s.data.filter (fun c => (b64Val c).isSome ∨ c = '=')
  if kept.length % 4 = 0 then b64DecodeChunks kept
  else .error "binascii.Error: Invalid padding"

/-- UTF-8 encoding of one character. -/
def utf8EncodeChar (c : Char) : List Nat :=
  let n := c.toNat
  if n < 128 then [n]
  else if n < 2048 then [192 + n / 64, 128 + n % 64]
  else if n < 65536 then [224 + n / 4096, 128 + n / 64 % 64, 128 + n % 64]
  else [240 + n / 262144, 128 + n / 4096 % 64, 128 + n / 64 % 64, 128 + n % 64]

/-- Embeds `str.encode('utf-8')` as a byte list. -/
def utf8Encode (s : String) : List Nat :=
  s.data.foldr (fun c acc => utf8EncodeChar c ++ acc) []

/-- Whether a byte is a UTF-8 continuation byte. -/
def isCont (b : Nat) : Bool := 128 ≤ b ∧ b < 192

/-- UTF-8 decoding of a byte list; errors mirror `bytes.decode('utf-8')`
raising `UnicodeDecodeError`. -/
def utf8DecodeList : List Nat → Except String (List Char)
  | [] => .ok []
  | b :: rest =>
    if b < 128 then (utf8DecodeList rest).map (fun cs => Char.ofNat b :: cs)
    else if 194 ≤ b ∧ b < 224 then
      match rest with
      | b2 :: r2 =>
        if isCont b2 then
          (utf8DecodeList r2).map (fun cs => Char.ofNat ((b - 192) * 64 + (b2 - 128)) :: cs)
        else .error "UnicodeDecodeError"
      | [] => .error "UnicodeDecodeError"
    else if 224 ≤ b ∧ b < 240 then
      match rest with
      | b2 :: b3 :: r3 =>
        if isCont b2 ∧ isCont b3 then
          (utf8DecodeList r3).map (fun cs =>
            Char.ofNat ((b - 224) * 4096 + (b2 - 128) * 64 + (b3 - 128)) :: cs)
        else .error "UnicodeDecodeError"
      | _ => .error "UnicodeDecodeError"
    else if 240 ≤ b ∧ b < 245 then
      match rest with
      | b2 :: b3 :: b4 :: r4 =>
        if isCont b2 ∧ isCont b3 ∧ isCont b4 then
          (utf8DecodeList r4).map (fun cs =>
            Char.ofNat ((b - 240) * 262144 + (b2 - 128) * 4096 + (b3 - 128) * 64 + (b4 - 128)) :: cs)
        else .error "UnicodeDecodeError"
      | _ => .error "UnicodeDecodeError"
    else .error "UnicodeDecodeError"

/-- Embeds `bytes.decode('utf-8')`. -/
def utf8Decode (bs : List Nat) : Except String String :=
  (utf8DecodeList bs).map (fun cs => String.mk cs)

/-- The structured state payload built at line 35 of hubspot.py:
`{'state': secrets.token_urlsafe(32), 'user_id': user_id, 'org_id': org_id}`. -/
structure StateData where
  state : String
  user_id : String
  org_id : String
deriving Repr, DecidableEq

/-- Embeds `json.dumps` on the state dict, with Python's default separators.
JSON escaping of special characters is not modelled: the nonce alphabet is
URL-safe and every concrete identifier considered is quote- and
backslash-free. -/
def json_dumps_state (sd : StateData) : String :=
  "\x7b\"state\": \"" ++ sd.state ++ "\", \"user_id\": \"" ++ sd.user_id ++
    "\", \"org_id\": \"" ++ sd.org_id ++ "\"\x7d"

/-- Consume an exact literal from the front of a character list. -/
def takeLit : List Char → List Char → Option (List Char)
  | [], s => some s
  | _ :: _, [] => none
  | l :: lt, c :: ct => if l = c then takeLit lt ct else none

/-- Split a character list at the first double quote (string content, rest). -/
def takeToQuote : List Char → Option (List Char × List Char)
  | [] => none
  | c :: t =>
    if c = '"' then some ([], t)
    else (takeToQuote t).map (fun p => (c :: p.1, p.2))

/-- Embeds `json.loads` restricted to the canonical object shape produced by
`json_dumps_state` (the only shape this code base ever serializes), combined
with the three `.get('state') / .get('user_id') / .get('org_id')` accesses.
Input of any other shape is reported as a decode error, matching
`json.JSONDecodeError` on every input considered in this development. -/
def parseStateJson (s : String) : Except String StateData :=
  match takeLit "\x7b\"state\": \"".data s.data with
  | none => .error "json.JSONDecodeError: Expecting value"
  | some r1 =>
    match takeToQuote r1 with
    | none => .error "json.JSONDecodeError: Unterminated string"
    | some (st, r2) =>
      match takeLit ", \"user_id\": \"".data r2 with
      | none => .error "json.JSONDecodeError: Expecting delimiter"
      | some r3 =>
        match takeToQuote r3 with
        | none => .error "json.JSONDecodeError: Unterminated string"
        | some (uid, r4) =>
          match takeLit ", \"org_id\": \"".data r4 with
          | none => .error "json.JSONDecodeError: Expecting delimiter"
          | some r5 =>
            match takeToQuote r5 with
            | none => .error "json.JSONDecodeError: Unterminated string"
            | some (oid, r6) =>
              if r6 = ['\x7d'] then .ok ⟨String.mk st, String.mk uid, String.mk oid⟩
              else .error "json.JSONDecodeError: Extra data"

/-- Embeds line 54 of hubspot.py,
`json.loads(base64.urlsafe_b64decode(encoded_state).decode('utf-8'))`,
on the optional `state` query parameter. A missing parameter makes
`urlsafe_b64decode(None)` raise `TypeError`; any stage failing propagates
its exception. -/
def decodeState : Option String → Except String StateData
  | none => .error "TypeError: argument should be a bytes-like object or ASCII string, not NoneType"
  | some es => do
    let bs ← urlsafe_b64decode es
    let txt ← utf8Decode bs
    parseStateJson txt

set_option maxRecDepth 100000 in
example :
    decodeState (some (urlsafe_b64encode (utf8Encode (json_dumps_state ⟨"NONCE", "u1", "o1"⟩)))) =
      .ok ⟨"NONCE", "u1", "o1"⟩ := by
  rfl

set_option maxRecDepth 100000 in
example : decodeState (some "%%%") = .error "json.JSONDecodeError: Expecting value" := by rfl

/-- Hex digit used by percent-encoding. -/
def hexDigit (n : Nat) : Char := "0123456789ABCDEF".data.getD n '0'

/-- Percent-encoding of a single byte. -/
def percentEncodeByte (b : Nat) : List Char := ['%', hexDigit (b / 16), hexDigit (b % 16)]

/-- Characters `urllib.parse.quote` leaves intact when `safe=""`. -/
def isUrlUnreserved (c : Char) : Bool :=
  c.isAlphanum ∨ c = '_' ∨ c = '.' ∨ c = '-' ∨ c = '~'

/-- Embeds `urllib.parse.quote(s, safe="")`. -/
def urlQuote (s : String) : String :=
  ⟨s.data.foldr (fun c acc =>
    if isUrlUnreserved c then c :: acc
    else (utf8EncodeChar c).foldr (fun b acc2 => percentEncodeByte b ++ acc2) acc) []⟩

/-- Module constant `CLIENT_ID` of hubspot.py. -/
def CLIENT_ID : String := "your-client-id"

/-- Module constant `CLIENT_SECRET` of hubspot.py. -/
def CLIENT_SECRET : String := "your-client-secret"

/-- Module constant `REDIRECT_URI` of hubspot.py. -/
def REDIRECT_URI : String := "http://localhost:8000/integrations/hubspot/oauth2callback"

/-- Module constant `authorization_url` of hubspot.py. -/
def authorization_url : String :=
  "https://app.hubspot.com/oauth/authorize?client_id=" ++ CLIENT_ID ++
    "&redirect_uri=" ++ urlQuote REDIRECT_URI ++ "&response_type=code"

/-- Module constant `SCOPE` of hubspot.py (two adjacent string literals). -/
def SCOPE : String :=
  "crm.objects.contacts.read crm.schemas.contacts.read " ++
    "crm.objects.companies.read crm.schemas.companies.read oauth"

/-- Trace of externally visible operations a handler performs, in order:
the cache calls with their arguments, and the provider token-endpoint POST. -/
inductive Op where
  | put (key value : String) (ttl : Option Int)
  | get (key : String)
  | del (key : String)
  | tokenPost (code : Option String)
deriving Repr, DecidableEq

/-- The callback request's query parameters, as read through
`request.query_params.get` (an absent parameter reads as `None`). -/
structure QueryParams where
  error : Option String
  error_description : Option String
  code : Option String
  state : Option String
deriving Repr, DecidableEq

/-- The provider's response to the token-exchange `requests.post`, an
environment input: HTTP status, body text, and the JSON body as re-serialized
by `json.dumps(token_response.json())`. -/
structure TokenResponse where
  status_code : Nat
  text : String
  jsonDump : String
deriving Repr, DecidableEq

/-- Outcome of `oauth2callback_hubspot`: a raised `fastapi.HTTPException`
(status code and detail), the final `HTMLResponse`, or an uncaught Python
exception escaping the handler (which the framework surfaces as a 500-class
server error, not an HTTPException). -/
inductive CallbackResult where
  | httpException (status : Nat) (detail : String)
  | html (content : String)
  | pyError (msg : String)
deriving Repr, DecidableEq

/-- Embeds `authorize_hubspot(user_id, org_id)`. The random
`secrets.token_urlsafe(32)` nonce is the explicit `nonce` parameter. Returns
the authorization URL, the updated stores, and the trace of cache calls. -/
def authorize_hubspot (avail : Bool) (now : Int) (s : Store) (user_id org_id nonce : String) :
    Except String (String × Store × List Op) :=
  let state_data : StateData := ⟨nonce, user_id, org_id⟩
  let encoded_state := urlsafe_b64encode (utf8Encode (json_dumps_state state_data))
  match add_key_value_redis avail now s ("hubspot_state:" ++ org_id ++ ":" ++ user_id)
      (json_dumps_state state_data) (some 600) with
  | .error e => .error e
  | .ok s1 =>
    let scope_param := urlQuote SCOPE
    let auth_url := authorization_url ++ "&scope=" ++ scope_param ++ "&state=" ++ encoded_state
    .ok (auth_url, s1,
      [Op.put ("hubspot_state:" ++ org_id ++ ":" ++ user_id) (json_dumps_state state_data)
        (some 600)])

/-- The `close_window_script` literal returned on callback success. -/
def close_window_script : String :=
  "\n    <html>\n        <script>\n            window.close();\n        </script>\n    </html>\n    "

/-- Embeds `oauth2callback_hubspot(request)`. Environment inputs: the provider
token-endpoint response `tr`, redis reachability `avail`, the clock `now`, the
stores `s`, and the query parameters `q`. Returns the handler outcome, the
final stores, and the trace of external operations performed, in order. -/
def oauth2callback_hubspot (tr : TokenResponse) (avail : Bool) (now : Int) (s : Store)
    (q : QueryParams) : CallbackResult × Store × List Op :=
  if pyTruthy q.error then
    (.httpException 400 (pyStrOpt (pyOr q.error_description q.error)), s, [])
  else
    match decodeState q.state with
    | .error e => (.pyError e, s, [])
    | .ok state_data =>
      let key := "hubspot_state:" ++ state_data.org_id ++ ":" ++ state_data.user_id
      match get_value_redis avail now s key with
      | .error e => (.pyError e, s, [Op.get key])
      | .ok (saved_state, s1) =>
        match saved_state with
        | none =>
          (.httpException 400 "State not found (expired). Please retry Connect.", s1, [Op.get key])
        | some saved =>
          if saved = "" then
            (.httpException 400 "State not found (expired). Please retry Connect.", s1,
              [Op.get key])
          else
            match parseStateJson saved with
            | .error e => (.pyError e, s1, [Op.get key])
            | .ok saved_state_obj =>
              if state_data.state ≠ saved_state_obj.state then
                (.httpException 400
                  "State mismatch. Please retry Connect and complete in the most recent popup.",
                  s1, [Op.get key])
              else
                match delete_key_redis avail s1 key with
                | .error e => (.pyError e, s1, [Op.get key, Op.tokenPost q.code, Op.del key])
                | .ok s2 =>
                  if tr.status_code ≠ 200 then
                    (.httpException 400 ("HubSpot token exchange failed: " ++ tr.text), s2,
                      [Op.get key, Op.tokenPost q.code, Op.del key])
                  else
                    let ckey :=
                      "hubspot_credentials:" ++ state_data.org_id ++ ":" ++ state_data.user_id
                    match add_key_value_redis avail now s2 ckey tr.jsonDump (some 600) with
                    | .error e => (.pyError e, s2, [Op.get key, Op.tokenPost q.code, Op.del key])
                    | .ok s3 =>
                      (.html close_window_script, s3,
                        [Op.get key, Op.tokenPost q.code, Op.del key,
                          Op.put ckey tr.jsonDump (some 600)])

/-- Outcome of `get_hubspot_credentials`: the returned blob, a raised
`HTTPException`, or an uncaught exception. -/
inductive CredentialsResult where
  | creds (blob : String)
  | httpException (status : Nat) (detail : String)
  | pyError (msg : String)
deriving Repr, DecidableEq

/-- Embeds `get_hubspot_credentials(user_id, org_id)`. The cached blob is
`json.dumps` output, and `json.loads(credentials)` inverts that serialization,
so the parsed blob is represented by the serialized string it was read as. -/
def get_hubspot_credentials (avail : Bool) (now : Int) (s : Store) (user_id org_id : String) :
    CredentialsResult × Store × List Op :=
  let key := "hubspot_credentials:" ++ org_id ++ ":" ++ user_id
  match get_value_redis avail now s key with
  | .error e => (.pyError e, s, [Op.get key])
  | .ok (credentials, s1) =>
    match credentials with
    | none => (.httpException 400 "No credentials found.", s1, [Op.get key])
    | some v =>
      if v = "" then (.httpException 400 "No credentials found.", s1, [Op.get key])
      else
        match delete_key_redis avail s1 key with
        | .error e => (.pyError e, s1, [Op.get key, Op.del key])
        | .ok s2 => (.creds v, s2, [Op.get key, Op.del key])

/-- The `properties` sub-dict of a raw HubSpot contact, restricted to the
fields the fetch layer requests (`firstname,lastname,email`). -/
structure ContactProperties where
  firstname : Option String
  lastname : Option String
  email : Option String
deriving Repr, DecidableEq

/-- A raw HubSpot contact record as the mapper reads it: its `id` and its
`properties` dict; `contact.get('properties', {}) or {}` collapses a missing
or falsy `properties` to the empty dict. -/
structure HubSpotContact where
  id : Option String
  properties : Option ContactProperties
deriving Repr, DecidableEq

/-- The `properties` sub-dict of a raw HubSpot company, restricted to the
fields the fetch layer requests (`name,domain`). -/
structure CompanyProperties where
  name : Option String
  domain : Option String
deriving Repr, DecidableEq

/-- A raw HubSpot company record as the mapper reads it. -/
structure HubSpotCompany where
  id : Option String
  properties : Option CompanyProperties
deriving Repr, DecidableEq

/-- Python whitespace stripped by `str.strip()` (the ASCII cases). -/
def isPySpace (c : Char) : Bool :=
  c = ' ' ∨ c = '\t' ∨ c = '\n' ∨ c = '\r' ∨ c = '\x0b' ∨ c = '\x0c'

/-- Embeds Python `str.strip()`. -/
def pyStrip (s : String) : String :=
  ⟨((s.data.dropWhile isPySpace).reverse.dropWhile isPySpace).reverse⟩

/-- Modelled from the spec: the `IntegrationItem` record of
`integrations/integration_item.py`, which is not among the provided sources;
spec section 3 gives `id: string, type: enum, name: string, url: optional
string`. The `name` field is optional here because the mappers can pass
Python `None` into it. -/
structure IntegrationItem where
  id : String
  type : String
  name : Option String
  url : Option String
deriving Repr, DecidableEq

/-- Embeds `_create_integration_item_from_contact`: display name is
`(first_name + ' ' + last_name).strip() or email or contact.get('id')`. -/
def _create_integration_item_from_contact (contact : HubSpotContact) : IntegrationItem :=
  let properties := contact.properties.getD ⟨none, none, none⟩
  let first_name := properties.firstname.getD ""
  let last_name := properties.lastname.getD ""
  let email := properties.email
  let display_name :=
    if pyStrip (first_name ++ " " ++ last_name) ≠ "" then
      some (pyStrip (first_name ++ " " ++ last_name))
    else if pyTruthy email then email
    else contact.id
  { id := pyStrOpt contact.id ++ "_contact", type := "contact", name := display_name, url := none }

/-- Embeds `_create_integration_item_from_company`: display name is
`properties.get('name') or properties.get('domain') or company.get('id')`. -/
def _create_integration_item_from_company (company : HubSpotCompany) : IntegrationItem :=
  let properties := company.properties.getD ⟨none, none⟩
  let name :=
    if pyTruthy properties.name then properties.name
    else if pyTruthy properties.domain then properties.domain
    else company.id
  { id := pyStrOpt company.id ++ "_company", type := "company", name := name, url := none }

/-- The first truthy candidate of a Python `a or b or ... or z` chain (the
last candidate passes through even when falsy). -/
def firstTruthy : List (Option String) → Option String
  | [] => none
  | [o] => o
  | o :: t => if pyTruthy o then o else firstTruthy t

/-- The display-name derivation exactly as claim C8 words it: try, in order,
the concatenated first+last name, then the email field, then a domain-style
fallback field, then the raw provider id, using the first that is non-empty. -/
def claimDisplayName (firstlast email domain id : Option String) : Option String :=
  if pyTruthy firstlast then firstlast
  else if pyTruthy email then email
  else if pyTruthy domain then domain
  else id

/-- The value a key currently maps to in the store the operations reach (the
external store when redis is reachable, the fallback dict otherwise),
ignoring ttl metadata. -/
def storeLookup (avail : Bool) (s : Store) (key : String) : Option String :=
  if avail then (alGet s.ext key).map (fun e => e.value)
  else (alGet s.mem key).map (fun e => e.value)

/-- Whether a callback outcome is a raised `HTTPException` (a controlled
400-class failure), as opposed to an uncaught exception or a success page. -/
def isHttpException : CallbackResult → Bool
  | .httpException _ _ => true
  | _ => false

theorem alGet_alSet_self {α : Type} (l : List (String × α)) (k : String) (v : α) :
    alGet (alSet l k v) k = some v := by
  induction l with
  | nil => simp [alSet, alGet]
  | cons h t ih =>
    obtain ⟨k0, v0⟩ := h
    by_cases hk : k0 = k
    · subst hk; simp [alSet, alGet]
    · simp [alSet, alGet, hk, ih]

theorem alGet_alSet_ne {α : Type} (l : List (String × α)) (k k2 : String) (v : α)
    (hne : k ≠ k2) : alGet (alSet l k v) k2 = alGet l k2 := by
  induction l with
  | nil => simp [alSet, alGet, hne]
  | cons h t ih =>
    obtain ⟨k0, v0⟩ := h
    by_cases hk : k0 = k
    · subst hk; simp [alSet, alGet, hne]
    · simp [alSet, alGet, hk, ih]

theorem alGet_alDel_self {α : Type} (l : List (String × α)) (k : String) :
    alGet (alDel l k) k = none := by
  induction l with
  | nil => simp [alDel, alGet]
  | cons h t ih =>
    obtain ⟨k0, v0⟩ := h
    by_cases hk : k0 = k
    · simp [alDel, alGet, hk, ih]
    · simp [alDel, alGet, hk, ih]

theorem alGet_alDel_ne {α : Type} (l : List (String × α)) (k k2 : String)
    (hne : k ≠ k2) : alGet (alDel l k) k2 = alGet l k2 := by
  induction l with
  | nil => simp [alDel, alGet]
  | cons h t ih =>
    obtain ⟨k0, v0⟩ := h
    by_cases hk : k0 = k
    · subst hk; simp [alDel, alGet, ih, hne]
    · simp [alDel, alGet, hk, ih]

theorem alDel_absent {α : Type} (l : List (String × α)) (k : String)
    (h : alGet l k = none) : alDel l k = l := by
  induction l with
  | nil => simp [alDel]
  | cons hd t ih =>
    obtain ⟨k0, v0⟩ := hd
    by_cases hk : k0 = k
    · subst hk; simp [alGet] at h
    · simp [alGet, hk] at h
      simp [alDel, hk, ih h]

theorem string_data_append (a b : String) : (a ++ b).data = a.data ++ b.data := rfl

/-- The state-token key and the credentials key never collide, whatever the
identifiers are: their literal markers differ at character position eight. -/
theorem stateKey_ne_credKey (o u o2 u2 : String) :
    "hubspot_state:" ++ o ++ ":" ++ u ≠ "hubspot_credentials:" ++ o2 ++ ":" ++ u2 := by
  intro h
  have hd := congrArg String.data h
  rw [string_data_append, string_data_append, string_data_append,
    string_data_append, string_data_append, string_data_append] at hd
  have h1 : "hubspot_state:".data =
      ['h', 'u', 'b', 's', 'p', 'o', 't', '_', 's', 't', 'a', 't', 'e', ':'] := rfl
  have h2 : "hubspot_credentials:".data =
      ['h', 'u', 'b', 's', 'p', 'o', 't', '_', 'c', 'r', 'e', 'd', 'e', 'n', 't', 'i', 'a',
        'l', 's', ':'] := rfl
  rw [h1, h2] at hd
  simp [List.append_assoc, List.cons_append, List.nil_append] at hd

/-- A successful cache read leaves the store untouched and agrees with
`storeLookup`. -/
theorem get_value_redis_some (avail : Bool) (now : Int) (s s1 : Store) (key v : String)
    (h : get_value_redis avail now s key = .ok (some v, s1)) :
    s1 = s ∧ storeLookup avail s key = some v := by
  cases avail with
  | true =>
    simp [get_value_redis] at h
    obtain ⟨hv, hs⟩ := h
    exact ⟨hs.symm, by simp [storeLookup, hv]⟩
  | false =>
    simp only [get_value_redis, Bool.false_eq_true, if_false] at h
    cases halg : alGet s.mem key with
    | none => simp [halg] at h
    | some e =>
      simp only [halg] at h
      cases hea : e.expireAt with
      | none =>
        simp only [hea] at h
        simp at h
        obtain ⟨hv, hs⟩ := h
        exact ⟨hs.symm, by simp [storeLookup, halg, hv]⟩
      | some ea =>
        simp only [hea] at h
        by_cases ht : now > ea
        · simp [ht] at h
        · simp [ht] at h
          obtain ⟨hv, hs⟩ := h
          exact ⟨hs.symm, by simp [storeLookup, halg, hv]⟩

/-- C5 (confirmed): with the external store unavailable, `put(key, value, ttl)`
at time `now` followed by `get(key)` at a time strictly within the ttl returns
the original value, and `get(key)` at a time after the ttl has elapsed returns
absent and lazily removes the expired entry from the fallback store (the
resulting store has the key deleted; no background sweep exists in the model,
expiry is checked only inside `get`). -/
theorem claim_C5 (now t1 t2 ttl : Int) (s : Store) (key value : String)
    (httl : 0 < ttl) (h1 : t1 < now + ttl) (h2 : now + ttl < t2) :
    ∀ s1, add_key_value_redis false now s key value (some ttl) = .ok s1 →
      get_value_redis false t1 s1 key = .ok (some value, s1) ∧
      get_value_redis false t2 s1 key = .ok (none, { s1 with mem := alDel s1.mem key }) ∧
      alGet (alDel s1.mem key) key = none := by
  intro s1 hadd
  have httl0 : pyTruthyInt (some ttl) = true := by
    simp [pyTruthyInt]
    omega
  simp [add_key_value_redis, httl0] at hadd
  subst hadd
  have hn1 : ¬ (t1 > now + ttl) := by omega
  have hn2 : t2 > now + ttl := by omega
  refine ⟨?_, ?_, ?_⟩
  · simp [get_value_redis, alGet_alSet_self, hn1]
  · simp [get_value_redis, alGet_alSet_self, hn2]
  · exact alGet_alDel_self _ _

/-- C5 witness: a concrete run with ttl 600, reads at times 10 and 601. -/
theorem claim_C5_witness :
    (0 : Int) < 600 ∧ (10 : Int) < 0 + 600 ∧ (0 : Int) + 600 < 601 ∧
      (get_value_redis false 10 ⟨[], [("k", ⟨"v", some 600⟩)]⟩ "k" =
          .ok (some "v", ⟨[], [("k", ⟨"v", some 600⟩)]⟩) ∧
        get_value_redis false 601 ⟨[], [("k", ⟨"v", some 600⟩)]⟩ "k" =
          .ok (none, ⟨[], alDel [("k", ⟨"v", some 600⟩)] "k"⟩) ∧
        alGet (alDel [("k", (⟨"v", some 600⟩ : MemEntry))] "k") "k" = none) :=
  ⟨by decide, by decide, by decide,
    claim_C5 0 10 601 600 ⟨[], []⟩ "k" "v" (by decide) (by decide) (by decide)
      ⟨[], [("k", ⟨"v", some 600⟩)]⟩ (by rfl)⟩

/-- C6 (confirmed): none of the three cache operations ever raises to its
caller, whichever way the external store call turns out (`avail` covers both
success and an arbitrary raised exception, which the code catches and converts
to fallback behavior); and delete of a key absent from both stores is a no-op
returning the store unchanged. -/
theorem claim_C6 (avail : Bool) (now : Int) (s : Store) (key value : String)
    (expire : Option Int) :
    (∃ s1, add_key_value_redis avail now s key value expire = .ok s1) ∧
      (∃ r, get_value_redis avail now s key = .ok r) ∧
      (∃ s2, delete_key_redis avail s key = .ok s2) ∧
      (alGet s.ext key = none → alGet s.mem key = none →
        delete_key_redis avail s key = .ok s) := by
  refine ⟨?_, ?_, ?_, ?_⟩
  · cases avail <;> exact ⟨_, rfl⟩
  · cases avail
    · simp only [get_value_redis, Bool.false_eq_true, if_false]
      cases halg : alGet s.mem key with
      | none => exact ⟨_, rfl⟩
      | some e =>
        obtain ⟨ev, eea⟩ := e
        cases eea with
        | none => exact ⟨_, rfl⟩
        | some ea =>
          by_cases h : now > ea
          · exact ⟨(none, { s with mem := alDel s.mem key }), by simp [h]⟩
          · exact ⟨(some ev, s), by simp [h]⟩
    · exact ⟨_, rfl⟩
  · cases avail <;> exact ⟨_, rfl⟩
  · intro hext hmem
    cases avail
    · simp [delete_key_redis, alDel_absent _ _ hmem]
    · simp [delete_key_redis, alDel_absent _ _ hext]

/-- C6 witness: a concrete run of all three operations, with the key absent. -/
theorem claim_C6_witness :
    (∃ s1, add_key_value_redis false 0 ⟨[], []⟩ "k" "v" (some 600) = .ok s1) ∧
      (∃ r, get_value_redis false 0 ⟨[], []⟩ "k" = .ok r) ∧
      (∃ s2, delete_key_redis false ⟨[], []⟩ "k" = .ok s2) ∧
      (alGet (⟨[], []⟩ : Store).ext "k" = none → alGet (⟨[], []⟩ : Store).mem "k" = none →
        delete_key_redis false ⟨[], []⟩ "k" = .ok ⟨[], []⟩) :=
  claim_C6 false 0 ⟨[], []⟩ "k" "v" (some 600)

/-- C7 (confirmed): a callback whose query parameters carry a non-empty
`error` parameter fails immediately with the 400 HTTPException (the
ProviderDenied failure), whose detail is Python `error_description or error`
(so a present, non-empty `error_description` is the surfaced detail,
otherwise the `error` value itself), before any cache lookup or any other
external operation: the stores come back unchanged and the operation trace
is empty. -/
theorem claim_C7 (tr : TokenResponse) (avail : Bool) (now : Int) (s : Store) (q : QueryParams)
    (herr : pyTruthy q.error = true) :
    oauth2callback_hubspot tr avail now s q =
      (.httpException 400 (pyStrOpt (pyOr q.error_description q.error)), s, []) := by
  simp [oauth2callback_hubspot, herr]

/-- C7 witness: a concrete denied callback, on a store holding a state token;
the token survives untouched and nothing is looked up. -/
theorem claim_C7_witness :
    pyTruthy (some "access_denied") = true ∧
      oauth2callback_hubspot ⟨200, "", ""⟩ true 0
          ⟨[("hubspot_state:o1:u1", ⟨"sv", some 600⟩)], []⟩
          ⟨some "access_denied", some "User denied the request", none, none⟩ =
        (.httpException 400 "User denied the request",
          ⟨[("hubspot_state:o1:u1", ⟨"sv", some 600⟩)], []⟩, []) :=
  ⟨by decide,
    claim_C7 ⟨200, "", ""⟩ true 0 ⟨[("hubspot_state:o1:u1", ⟨"sv", some 600⟩)], []⟩
      ⟨some "access_denied", some "User denied the request", none, none⟩ (by decide)⟩

/-- A concrete state payload (nonce "AAAA", user "u1", org "o1") for concrete runs. -/
def sdA : StateData := ⟨"AAAA", "u1", "o1"⟩

/-- A concrete state payload with a different nonce for the same user/org. -/
def sdB : StateData := ⟨"BBBB", "u1", "o1"⟩

/-- A store holding the saved state token for `("u1", "o1")` in the external store. -/
def storeA : Store := ⟨[("hubspot_state:o1:u1", ⟨json_dumps_state sdA, some 600⟩)], []⟩

/-- The encoded `state` parameter carrying a given payload, exactly as
`authorize_hubspot` builds it. -/
def encState (sd : StateData) : String := urlsafe_b64encode (utf8Encode (json_dumps_state sd))

/-- A callback query with `code=abc` and the encoded state for a payload. -/
def queryFor (sd : StateData) : QueryParams := ⟨none, none, some "abc", some (encState sd)⟩

/-- C4 (confirmed): with a stored non-empty credential blob for
`(user_id, org_id)`, `get_hubspot_credentials` returns the blob and deletes
it, and an immediately repeated call (at any later time) fails with the 400
"No credentials found." HTTPException; when nothing is stored, the call fails
with that same HTTPException. -/
theorem claim_C4 (avail : Bool) (now now2 : Int) (s : Store) (u o v : String)
    (hv : v ≠ "")
    (hstored : get_value_redis avail now s ("hubspot_credentials:" ++ o ++ ":" ++ u) =
      .ok (some v, s)) :
    (∃ s2, get_hubspot_credentials avail now s u o =
        (.creds v, s2,
          [Op.get ("hubspot_credentials:" ++ o ++ ":" ++ u),
            Op.del ("hubspot_credentials:" ++ o ++ ":" ++ u)]) ∧
      delete_key_redis avail s ("hubspot_credentials:" ++ o ++ ":" ++ u) = .ok s2 ∧
      (get_hubspot_credentials avail now2 s2 u o).1 =
        .httpException 400 "No credentials found.") ∧
    (∀ s3, get_value_redis avail now s3 ("hubspot_credentials:" ++ o ++ ":" ++ u) =
        .ok (none, s3) →
      (get_hubspot_credentials avail now s3 u o).1 =
        .httpException 400 "No credentials found.") := by
  constructor
  · cases avail
    · refine ⟨{ s with mem := alDel s.mem ("hubspot_credentials:" ++ o ++ ":" ++ u) },
        ?_, ?_, ?_⟩
      · simp only [get_hubspot_credentials, hstored, hv, delete_key_redis]
        simp [hv]
      · simp [delete_key_redis]
      · simp [get_hubspot_credentials, get_value_redis, alGet_alDel_self]
    · refine ⟨{ s with ext := alDel s.ext ("hubspot_credentials:" ++ o ++ ":" ++ u) },
        ?_, ?_, ?_⟩
      · simp only [get_hubspot_credentials, hstored, hv, delete_key_redis]
        simp [hv]
      · simp [delete_key_redis]
      · simp [get_hubspot_credentials, get_value_redis, alGet_alDel_self]
  · intro s3 hnone
    simp [get_hubspot_credentials, hnone]

/-- C4 witness: a concrete double read of a stored blob on the external store,
and a read on an empty store. -/
theorem claim_C4_witness :
    ("BLOB" : String) ≠ "" ∧
      get_value_redis true 0 ⟨[("hubspot_credentials:" ++ "o1" ++ ":" ++ "u1", ⟨"BLOB", some 600⟩)], []⟩
          ("hubspot_credentials:" ++ "o1" ++ ":" ++ "u1") =
        .ok (some "BLOB", ⟨[("hubspot_credentials:" ++ "o1" ++ ":" ++ "u1", ⟨"BLOB", some 600⟩)], []⟩) ∧
      ((∃ s2, get_hubspot_credentials true 0
            ⟨[("hubspot_credentials:" ++ "o1" ++ ":" ++ "u1", ⟨"BLOB", some 600⟩)], []⟩ "u1" "o1" =
          (.creds "BLOB", s2,
            [Op.get ("hubspot_credentials:" ++ "o1" ++ ":" ++ "u1"),
              Op.del ("hubspot_credentials:" ++ "o1" ++ ":" ++ "u1")]) ∧
        delete_key_redis true ⟨[("hubspot_credentials:" ++ "o1" ++ ":" ++ "u1", ⟨"BLOB", some 600⟩)], []⟩
            ("hubspot_credentials:" ++ "o1" ++ ":" ++ "u1") = .ok s2 ∧
        (get_hubspot_credentials true 1 s2 "u1" "o1").1 =
          .httpException 400 "No credentials found.") ∧
      (∀ s3, get_value_redis true 0 s3 ("hubspot_credentials:" ++ "o1" ++ ":" ++ "u1") =
          .ok (none, s3) →
        (get_hubspot_credentials true 0 s3 "u1" "o1").1 =
          .httpException 400 "No credentials found.")) :=
  ⟨by decide, by rfl,
    claim_C4 true 0 1 ⟨[("hubspot_credentials:" ++ "o1" ++ ":" ++ "u1", ⟨"BLOB", some 600⟩)], []⟩
      "u1" "o1" "BLOB" (by decide) (by rfl)⟩

/-- C10 (confirmed): when the provider's token endpoint answers a non-200
status on a callback that reached the exchange (saved state found, nonce
match), the handler fails with the 400 token-exchange HTTPException and
writes no credential blob: the credentials entry for `(org_id, user_id)` is
unchanged in both stores, while the state token has already been deleted. -/
theorem claim_C10 (tr : TokenResponse) (avail : Bool) (now : Int) (s : Store)
    (q : QueryParams) (sd so : StateData) (v : String)
    (herr : pyTruthy q.error = false)
    (hdec : decodeState q.state = .ok sd)
    (hget : get_value_redis avail now s ("hubspot_state:" ++ sd.org_id ++ ":" ++ sd.user_id) =
      .ok (some v, s))
    (hv : v ≠ "")
    (hparse : parseStateJson v = .ok so)
    (hmatch : sd.state = so.state)
    (hstatus : tr.status_code ≠ 200) :
    ∃ s2, oauth2callback_hubspot tr avail now s q =
        (.httpException 400 ("HubSpot token exchange failed: " ++ tr.text), s2,
          [Op.get ("hubspot_state:" ++ sd.org_id ++ ":" ++ sd.user_id), Op.tokenPost q.code,
            Op.del ("hubspot_state:" ++ sd.org_id ++ ":" ++ sd.user_id)]) ∧
      alGet s2.ext ("hubspot_credentials:" ++ sd.org_id ++ ":" ++ sd.user_id) =
        alGet s.ext ("hubspot_credentials:" ++ sd.org_id ++ ":" ++ sd.user_id) ∧
      alGet s2.mem ("hubspot_credentials:" ++ sd.org_id ++ ":" ++ sd.user_id) =
        alGet s.mem ("hubspot_credentials:" ++ sd.org_id ++ ":" ++ sd.user_id) ∧
      storeLookup avail s2 ("hubspot_state:" ++ sd.org_id ++ ":" ++ sd.user_id) = none := by
  cases avail
  · refine ⟨{ s with mem := alDel s.mem ("hubspot_state:" ++ sd.org_id ++ ":" ++ sd.user_id) },
      ?_, ?_, ?_, ?_⟩
    · simp [oauth2callback_hubspot, herr, hdec, hget, hv, hparse, hmatch, hstatus,
        delete_key_redis]
    · rfl
    · exact alGet_alDel_ne _ _ _
        (stateKey_ne_credKey sd.org_id sd.user_id sd.org_id sd.user_id)
    · simp [storeLookup, alGet_alDel_self]
  · refine ⟨{ s with ext := alDel s.ext ("hubspot_state:" ++ sd.org_id ++ ":" ++ sd.user_id) },
      ?_, ?_, ?_, ?_⟩
    · simp [oauth2callback_hubspot, herr, hdec, hget, hv, hparse, hmatch, hstatus,
        delete_key_redis]
    · exact alGet_alDel_ne _ _ _
        (stateKey_ne_credKey sd.org_id sd.user_id sd.org_id sd.user_id)
    · rfl
    · simp [storeLookup, alGet_alDel_self]

set_option maxRecDepth 1000000 in
/-- C10 witness: a concrete 403 token response on a matching callback; the
state token is gone, the credentials key holds the same (no) entry as before. -/
theorem claim_C10_witness :
    pyTruthy (queryFor sdA).error = false ∧
      decodeState (queryFor sdA).state = .ok sdA ∧
      get_value_redis true 0 storeA "hubspot_state:o1:u1" =
        .ok (some (json_dumps_state sdA), storeA) ∧
      json_dumps_state sdA ≠ "" ∧
      parseStateJson (json_dumps_state sdA) = .ok sdA ∧
      (⟨403, "denied", "ERRJSON"⟩ : TokenResponse).status_code ≠ 200 ∧
      (∃ s2, oauth2callback_hubspot ⟨403, "denied", "ERRJSON"⟩ true 0 storeA (queryFor sdA) =
          (.httpException 400 "HubSpot token exchange failed: denied", s2,
            [Op.get "hubspot_state:o1:u1", Op.tokenPost (some "abc"),
              Op.del "hubspot_state:o1:u1"]) ∧
        alGet s2.ext "hubspot_credentials:o1:u1" = alGet storeA.ext "hubspot_credentials:o1:u1" ∧
        alGet s2.mem "hubspot_credentials:o1:u1" = alGet storeA.mem "hubspot_credentials:o1:u1" ∧
        storeLookup true s2 "hubspot_state:o1:u1" = none) :=
  ⟨by rfl, by rfl, by rfl, by decide, by rfl, by decide,
    claim_C10 ⟨403, "denied", "ERRJSON"⟩ true 0 storeA (queryFor sdA) sdA sdA
      (json_dumps_state sdA) (by rfl) (by rfl) (by rfl) (by decide) (by rfl) (by rfl)
      (by decide)⟩

set_option maxRecDepth 1000000 in
/-- C1 counterexample: on this concrete callback the saved state token is
found in the cache, the nonce comparison fails, and the handler raises the
StateMismatch HTTPException with the stores untouched: only a cache get was
performed and the state token is still stored afterwards. The claim that the
token is deleted regardless of the comparison outcome is false at this input. -/
theorem claim_C1_counterexample :
    oauth2callback_hubspot ⟨200, "", "TOKENJSON"⟩ true 0 storeA (queryFor sdB) =
      (.httpException 400
        "State mismatch. Please retry Connect and complete in the most recent popup.",
        storeA, [Op.get "hubspot_state:o1:u1"]) ∧
      storeLookup true storeA "hubspot_state:o1:u1" = some (json_dumps_state sdA) :=
  ⟨by rfl, by rfl⟩

/-- C1 corrected: once the saved state token is found, it is deleted before
the request completes on every path where the nonce comparison succeeds
(including the token-exchange-failure path: the delete precedes the status
check); but on the StateMismatch path the handler raises with the stores
untouched and the token still present, so the deletion is not unconditional. -/
theorem claim_C1_amended (tr : TokenResponse) (avail : Bool) (now : Int) (s : Store)
    (q : QueryParams) (sd so : StateData) (v : String)
    (herr : pyTruthy q.error = false)
    (hdec : decodeState q.state = .ok sd)
    (hget : get_value_redis avail now s ("hubspot_state:" ++ sd.org_id ++ ":" ++ sd.user_id) =
      .ok (some v, s))
    (hv : v ≠ "")
    (hparse : parseStateJson v = .ok so) :
    (sd.state = so.state →
      ∀ r s2 t, oauth2callback_hubspot tr avail now s q = (r, s2, t) →
        storeLookup avail s2 ("hubspot_state:" ++ sd.org_id ++ ":" ++ sd.user_id) = none) ∧
    (sd.state ≠ so.state →
      oauth2callback_hubspot tr avail now s q =
        (.httpException 400
          "State mismatch. Please retry Connect and complete in the most recent popup.", s,
          [Op.get ("hubspot_state:" ++ sd.org_id ++ ":" ++ sd.user_id)]) ∧
      storeLookup avail s ("hubspot_state:" ++ sd.org_id ++ ":" ++ sd.user_id) = some v) := by
  have hcs : ("hubspot_credentials:" ++ sd.org_id ++ ":" ++ sd.user_id) ≠
      ("hubspot_state:" ++ sd.org_id ++ ":" ++ sd.user_id) :=
    Ne.symm (stateKey_ne_credKey sd.org_id sd.user_id sd.org_id sd.user_id)
  constructor
  · intro hmatch r s2 t heq
    by_cases hst : tr.status_code = 200
    · cases avail
      · simp [oauth2callback_hubspot, herr, hdec, hget, hv, hparse, hmatch, hst,
          delete_key_redis, add_key_value_redis, pyTruthyInt] at heq
        obtain ⟨-, hs2, -⟩ := heq
        subst hs2
        have hrw : ∀ (l : List (String × MemEntry)) (w : MemEntry),
            alGet (alSet l ("hubspot_credentials:" ++ sd.org_id ++ ":" ++ sd.user_id) w)
              ("hubspot_state:" ++ sd.org_id ++ ":" ++ sd.user_id) =
            alGet l ("hubspot_state:" ++ sd.org_id ++ ":" ++ sd.user_id) :=
          fun l w => alGet_alSet_ne l _ _ w hcs
        simp [storeLookup, hrw, alGet_alDel_self]
      · simp [oauth2callback_hubspot, herr, hdec, hget, hv, hparse, hmatch, hst,
          delete_key_redis, add_key_value_redis, pyTruthyInt] at heq
        obtain ⟨-, hs2, -⟩ := heq
        subst hs2
        have hrw : ∀ (l : List (String × ExtEntry)) (w : ExtEntry),
            alGet (alSet l ("hubspot_credentials:" ++ sd.org_id ++ ":" ++ sd.user_id) w)
              ("hubspot_state:" ++ sd.org_id ++ ":" ++ sd.user_id) =
            alGet l ("hubspot_state:" ++ sd.org_id ++ ":" ++ sd.user_id) :=
          fun l w => alGet_alSet_ne l _ _ w hcs
        simp [storeLookup, hrw, alGet_alDel_self]
    · cases avail
      · simp [oauth2callback_hubspot, herr, hdec, hget, hv, hparse, hmatch, hst,
          delete_key_redis] at heq
        obtain ⟨-, hs2, -⟩ := heq
        subst hs2
        simp [storeLookup, alGet_alDel_self]
      · simp [oauth2callback_hubspot, herr, hdec, hget, hv, hparse, hmatch, hst,
          delete_key_redis] at heq
        obtain ⟨-, hs2, -⟩ := heq
        subst hs2
        simp [storeLookup, alGet_alDel_self]
  · intro hne
    constructor
    · simp [oauth2callback_hubspot, herr, hdec, hget, hv, hparse, hne]
    · exact (get_value_redis_some _ _ _ _ _ _ hget).2

set_option maxRecDepth 1000000 in
/-- C1 witness: a concrete matching callback whose exchange fails with 403;
the state token is deleted from the final store all the same. -/
theorem claim_C1_amended_witness :
    pyTruthy (queryFor sdA).error = false ∧
      decodeState (queryFor sdA).state = .ok sdA ∧
      get_value_redis true 0 storeA "hubspot_state:o1:u1" =
        .ok (some (json_dumps_state sdA), storeA) ∧
      json_dumps_state sdA ≠ "" ∧
      parseStateJson (json_dumps_state sdA) = .ok sdA ∧
      ((sdA.state = sdA.state →
        ∀ r s2 t,
          oauth2callback_hubspot ⟨403, "denied", "ERRJSON"⟩ true 0 storeA (queryFor sdA) =
            (r, s2, t) →
          storeLookup true s2 "hubspot_state:o1:u1" = none) ∧
      (sdA.state ≠ sdA.state →
        oauth2callback_hubspot ⟨403, "denied", "ERRJSON"⟩ true 0 storeA (queryFor sdA) =
          (.httpException 400
            "State mismatch. Please retry Connect and complete in the most recent popup.",
            storeA, [Op.get "hubspot_state:o1:u1"]) ∧
        storeLookup true storeA "hubspot_state:o1:u1" = some (json_dumps_state sdA))) :=
  ⟨by rfl, by rfl, by rfl, by decide, by rfl,
    claim_C1_amended ⟨403, "denied", "ERRJSON"⟩ true 0 storeA (queryFor sdA) sdA sdA
      (json_dumps_state sdA) (by rfl) (by rfl) (by rfl) (by decide) (by rfl)⟩

set_option maxRecDepth 1000000 in
/-- C2 counterexample: the state parameter `%%%` is not URL-safe base64 of a
JSON object; the handler terminates with the uncaught JSONDecodeError (a
server-error outcome), not with any HTTPException, so no MalformedState
400-class failure is produced. -/
theorem claim_C2_counterexample :
    oauth2callback_hubspot ⟨200, "", ""⟩ true 0 ⟨[], []⟩ ⟨none, none, some "abc", some "%%%"⟩ =
      (.pyError "json.JSONDecodeError: Expecting value", ⟨[], []⟩, []) ∧
      isHttpException (.pyError "json.JSONDecodeError: Expecting value") = false :=
  ⟨by rfl, by rfl⟩

/-- C2 corrected: a callback whose state parameter fails to decode propagates
the decoding exception uncaught (line 54 has no try/except): the handler ends
with that exception, not with a MalformedState 400-class HTTPException, and
performs no cache operation. -/
theorem claim_C2_amended (tr : TokenResponse) (avail : Bool) (now : Int) (s : Store)
    (q : QueryParams) (e : String)
    (herr : pyTruthy q.error = false)
    (hdec : decodeState q.state = .error e) :
    oauth2callback_hubspot tr avail now s q = (.pyError e, s, []) ∧
      isHttpException (.pyError e) = false := by
  constructor
  · simp [oauth2callback_hubspot, herr, hdec]
  · rfl

set_option maxRecDepth 1000000 in
/-- C2 witness: the undecodable concrete state `%%%`. -/
theorem claim_C2_amended_witness :
    pyTruthy (⟨none, none, some "abc", some "%%%"⟩ : QueryParams).error = false ∧
      decodeState (some "%%%") = .error "json.JSONDecodeError: Expecting value" ∧
      (oauth2callback_hubspot ⟨200, "", ""⟩ true 0 ⟨[], []⟩
          ⟨none, none, some "abc", some "%%%"⟩ =
        (.pyError "json.JSONDecodeError: Expecting value", ⟨[], []⟩, []) ∧
        isHttpException (.pyError "json.JSONDecodeError: Expecting value") = false) :=
  ⟨by rfl, by rfl,
    claim_C2_amended ⟨200, "", ""⟩ true 0 ⟨[], []⟩ ⟨none, none, some "abc", some "%%%"⟩
      "json.JSONDecodeError: Expecting value" (by rfl) (by rfl)⟩

set_option maxRecDepth 1000000 in
/-- C3 counterexample: `authorize_hubspot("u1","o1")` with nonce `AAAA` stores
the state token under `hubspot_state:o1:u1` (visible in the put trace), and
nothing whatsoever sits under the claimed keys `state:o1:u1` or
`credentials:o1:u1` afterwards: the claimed key format is wrong. -/
theorem claim_C3_counterexample :
    authorize_hubspot true 0 ⟨[], []⟩ "u1" "o1" "AAAA" =
      .ok (authorization_url ++ "&scope=" ++ urlQuote SCOPE ++ "&state=" ++ encState sdA,
        ⟨[("hubspot_state:o1:u1", ⟨json_dumps_state sdA, some 600⟩)], []⟩,
        [Op.put "hubspot_state:o1:u1" (json_dumps_state sdA) (some 600)]) ∧
      storeLookup true ⟨[("hubspot_state:o1:u1", ⟨json_dumps_state sdA, some 600⟩)], []⟩
          "state:o1:u1" = none ∧
      storeLookup true ⟨[("hubspot_state:o1:u1", ⟨json_dumps_state sdA, some 600⟩)], []⟩
          "credentials:o1:u1" = none :=
  ⟨by rfl, by rfl, by rfl⟩

/-- C3 corrected: the composite cache keys carry a `hubspot_` marker: the
state token is stored under `hubspot_state:{org_id}:{user_id}` and the
exchanged credential blob under `hubspot_credentials:{org_id}:{user_id}`,
both with a ttl of 600 seconds (visible as the put argument), and
`get_hubspot_credentials` reads that same
`hubspot_credentials:{org_id}:{user_id}` key. -/
theorem claim_C3_amended :
    (∀ avail now s u o nonce, ∃ url s1,
        authorize_hubspot avail now s u o nonce =
          .ok (url, s1,
            [Op.put ("hubspot_state:" ++ o ++ ":" ++ u) (json_dumps_state ⟨nonce, u, o⟩)
              (some 600)])) ∧
      (∀ (tr : TokenResponse) avail now s (q : QueryParams) (sd so : StateData) (v : String),
        pyTruthy q.error = false →
        decodeState q.state = .ok sd →
        get_value_redis avail now s ("hubspot_state:" ++ sd.org_id ++ ":" ++ sd.user_id) =
          .ok (some v, s) →
        v ≠ "" →
        parseStateJson v = .ok so →
        sd.state = so.state →
        tr.status_code = 200 →
        ∃ s3, oauth2callback_hubspot tr avail now s q =
          (.html close_window_script, s3,
            [Op.get ("hubspot_state:" ++ sd.org_id ++ ":" ++ sd.user_id),
              Op.tokenPost q.code,
              Op.del ("hubspot_state:" ++ sd.org_id ++ ":" ++ sd.user_id),
              Op.put ("hubspot_credentials:" ++ sd.org_id ++ ":" ++ sd.user_id) tr.jsonDump
                (some 600)])) ∧
      (∀ avail now s u o,
        (get_hubspot_credentials avail now s u o).2.2.head? =
          some (Op.get ("hubspot_credentials:" ++ o ++ ":" ++ u))) := by
  refine ⟨?_, ?_, ?_⟩
  · intro avail now s u o nonce
    cases avail
    · exact ⟨_, _, rfl⟩
    · exact ⟨_, _, rfl⟩
  · intro tr avail now s q sd so v herr hdec hget hv hparse hmatch hst
    cases avail
    · refine ⟨{ s with mem :=
        (alSet (alDel s.mem ("hubspot_state:" ++ sd.org_id ++ ":" ++ sd.user_id))
          ("hubspot_credentials:" ++ sd.org_id ++ ":" ++ sd.user_id)
          ⟨tr.jsonDump, some (now + 600)⟩) }, ?_⟩
      simp [oauth2callback_hubspot, herr, hdec, hget, hv, hparse, hmatch, hst,
        delete_key_redis, add_key_value_redis, pyTruthyInt]
    · refine ⟨{ s with ext :=
        (alSet (alSet (alDel s.ext ("hubspot_state:" ++ sd.org_id ++ ":" ++ sd.user_id))
            ("hubspot_credentials:" ++ sd.org_id ++ ":" ++ sd.user_id) ⟨tr.jsonDump, none⟩)
          ("hubspot_credentials:" ++ sd.org_id ++ ":" ++ sd.user_id)
          ⟨tr.jsonDump, some 600⟩) }, ?_⟩
      simp [oauth2callback_hubspot, herr, hdec, hget, hv, hparse, hmatch, hst,
        delete_key_redis, add_key_value_redis, pyTruthyInt]
  · intro avail now s u o
    cases avail
    · simp only [get_hubspot_credentials, get_value_redis, Bool.false_eq_true, if_false]
      cases halg : alGet s.mem ("hubspot_credentials:" ++ o ++ ":" ++ u) with
      | none => rfl
      | some e =>
        obtain ⟨ev, eea⟩ := e
        cases eea with
        | none => by_cases hv : ev = "" <;> simp [hv, delete_key_redis]
        | some ea =>
          by_cases ht : now > ea
          · simp [ht]
          · by_cases hv : ev = "" <;> simp [ht, hv, delete_key_redis]
    · simp only [get_hubspot_credentials, get_value_redis]
      cases halg : alGet s.ext ("hubspot_credentials:" ++ o ++ ":" ++ u) with
      | none => simp [halg]
      | some e => by_cases hv : e.value = "" <;> simp [halg, hv, delete_key_redis]

set_option maxRecDepth 1000000 in
/-- C3 witness: concrete runs of all three conjuncts. -/
theorem claim_C3_amended_witness :
    (∃ url s1, authorize_hubspot true 0 ⟨[], []⟩ "u1" "o1" "AAAA" =
        .ok (url, s1, [Op.put ("hubspot_state:" ++ "o1" ++ ":" ++ "u1")
          (json_dumps_state ⟨"AAAA", "u1", "o1"⟩) (some 600)])) ∧
      (∃ s3, oauth2callback_hubspot ⟨200, "", "TOKENJSON"⟩ true 0 storeA (queryFor sdA) =
          (.html close_window_script, s3,
            [Op.get ("hubspot_state:" ++ sdA.org_id ++ ":" ++ sdA.user_id),
              Op.tokenPost (queryFor sdA).code,
              Op.del ("hubspot_state:" ++ sdA.org_id ++ ":" ++ sdA.user_id),
              Op.put ("hubspot_credentials:" ++ sdA.org_id ++ ":" ++ sdA.user_id) "TOKENJSON"
                (some 600)])) ∧
      (get_hubspot_credentials true 0 ⟨[], []⟩ "u1" "o1").2.2.head? =
        some (Op.get ("hubspot_credentials:" ++ "o1" ++ ":" ++ "u1")) :=
  ⟨claim_C3_amended.1 true 0 ⟨[], []⟩ "u1" "o1" "AAAA",
    claim_C3_amended.2.1 ⟨200, "", "TOKENJSON"⟩ true 0 storeA (queryFor sdA) sdA sdA
      (json_dumps_state sdA) (by rfl) (by rfl) (by rfl) (by decide) (by rfl) (by rfl) (by rfl),
    claim_C3_amended.2.2 true 0 ⟨[], []⟩ "u1" "o1"⟩

/-- C8 counterexample: a company record with both a name and a domain. The
claimed chain (first+last name, then email, then the domain-style field, then
the id) yields the domain `acme.com` for this record, since a company record
has no first/last name and no email; the mapper instead returns the company
`name` property `Acme Inc`, a field the claimed chain does not mention. -/
theorem claim_C8_counterexample :
    (_create_integration_item_from_company
        ⟨some "77", some ⟨some "Acme Inc", some "acme.com"⟩⟩).name = some "Acme Inc" ∧
      claimDisplayName none none (some "acme.com") (some "77") = some "acme.com" ∧
      (_create_integration_item_from_company
          ⟨some "77", some ⟨some "Acme Inc", some "acme.com"⟩⟩).name ≠
        claimDisplayName none none (some "acme.com") (some "77") :=
  ⟨by decide, by decide, by decide⟩

/-- C8 corrected: the two mappers use per-type priority chains, each taking
the first truthy candidate: a contact's display name is the stripped
concatenation of first and last name, else the email, else the raw id (no
domain-style fallback); a company's is the `name` property, else the `domain`
property, else the raw id (no first+last or email step). -/
theorem claim_C8_amended :
    (∀ c : HubSpotContact,
        (_create_integration_item_from_contact c).name =
          firstTruthy
            [some (pyStrip ((c.properties.getD ⟨none, none, none⟩).firstname.getD "" ++ " " ++
              (c.properties.getD ⟨none, none, none⟩).lastname.getD "")),
              (c.properties.getD ⟨none, none, none⟩).email, c.id]) ∧
      (∀ co : HubSpotCompany,
        (_create_integration_item_from_company co).name =
          firstTruthy [(co.properties.getD ⟨none, none⟩).name,
            (co.properties.getD ⟨none, none⟩).domain, co.id]) := by
  constructor
  · intro c
    simp only [_create_integration_item_from_contact, firstTruthy, pyTruthy]
    split_ifs <;> simp_all [pyTruthy]
  · intro co
    simp only [_create_integration_item_from_company, firstTruthy, pyTruthy]
